import Mathlib

/-!
Verification of the two example programs in this repository:
`src/ch-5/3-struct-param.rs` (the area calculator) and
`src/ch-5/debug-print.rs` (the debug printer).

Machine integers (`u32`) are embedded as `Nat` reduced modulo `2^32` at the
one arithmetic operation the source performs; the debug-build overflow panic
on that multiplication is modelled as an explicit check, and a `main` that can
panic is modelled as an `Option` over its (stdout, exit code) outcome.
-/

/-- `2^32`, the modulus of the 32-bit unsigned integer type `u32`. -/
def U32_MOD : Nat := 4294967296

/-- The `Rect` struct shared by both source files: two `u32` fields,
`width` declared before `height`. -/
structure Rect where
  width : Nat
  height : Nat

/-- `fn area(rect: &Rect) -> u32 { rect.width * rect.height }`
from `3-struct-param.rs`: the `u32` product of the two fields,
reduced modulo `2^32` (release-build wrapping semantics). -/
def area (r : Rect) : Nat := (r.width * r.height) % U32_MOD

/-- The debug-build overflow check on the multiplication inside `area`:
`true` exactly when the true product `rect.width * rect.height` does not fit
in a `u32`. The source contains no guard of its own, so this is the only
condition under which the multiplication's panic branch is taken. -/
def areaOverflows (r : Rect) : Bool := decide (U32_MOD ≤ r.width * r.height)

/-- A call `area(&rect)` as seen from the caller: `area` receives only a
shared borrow, so the call yields the computed area together with the
rectangle the caller keeps, unchanged. -/
def callArea (r : Rect) : Nat × Rect := (area r, r)

/-- The literal `Rect { width: 30, height: 50 }` constructed by the `main`
of both programs. -/
def mainRect : Rect := { width := 30, height := 50 }

/-- The single line the area calculator's `main` prints:
`println!("The area of the rectangle is {}.", area(&rect))`. -/
def areaLine (r : Rect) : String :=
  "The area of the rectangle is " ++ toString (area r) ++ ".\n"

/-- `main` of `3-struct-param.rs`: constructs `mainRect`, computes its area
through a borrow and prints one formatted line, exiting with code 0.
The only fallible step is the multiplication inside `area`; if it overflows
the program panics (`none`), otherwise the outcome is `some (stdout, 0)`. -/
def areaProgram : Option (String × Nat) :=
  if areaOverflows mainRect then none else some (areaLine mainRect, 0)

/-- The `#[derive(Debug)]` rendering of a `Rect` value, following Rust's
derived `Debug` layout: type name, then the fields in declaration order as
`name: value`, comma-separated, inside braces. -/
def formatDebug (r : Rect) : String :=
  "Rect \x7b width: " ++ toString r.width ++ ", height: " ++
    toString r.height ++ " \x7d"

/-- `main` of `debug-print.rs`: constructs `mainRect` and prints
`println!("Rect is {:?}", rect)`, one line, exit code 0. It performs no
arithmetic and has no fallible operation, so its outcome is total. -/
def debugProgram : String × Nat :=
  ("Rect is " ++ formatDebug mainRect ++ "\n", 0)

/-- C1: for `w` and `h` in the `u32` range whose product does not overflow,
`area` on `Rect { width := w, height := h }` returns exactly `w * h`, and the
result again fits in a `u32`. -/
theorem area_correct (w h : Nat) (hw : w < U32_MOD) (hh : h < U32_MOD)
    (hwh : w * h < U32_MOD) :
    area { width := w, height := h } = w * h ∧
      area { width := w, height := h } < U32_MOD := by
  have hval : area { width := w, height := h } = w * h := by
    simp [area, Nat.mod_eq_of_lt hwh]
  exact ⟨hval, hval ▸ hwh⟩

/-- Witness for C1 at the concrete input `w = 30`, `h = 50`. -/
theorem area_correct_witness :
    area { width := 30, height := 50 } = 30 * 50 ∧
      area { width := 30, height := 50 } < U32_MOD :=
  area_correct 30 50 (by decide) (by decide) (by decide)

/-- C2: `area` on the rectangle the entry point constructs
(`width = 30`, `height = 50`) returns `1500`. -/
theorem area_main_value : area mainRect = 1500 := by decide

/-- C3: `area` is commutative in the two fields whenever both lie in the
`u32` range and their product does not overflow. -/
theorem area_comm (w h : Nat) (hw : w < U32_MOD) (hh : h < U32_MOD)
    (hwh : w * h < U32_MOD) :
    area { width := w, height := h } = area { width := h, height := w } := by
  simp [area, Nat.mul_comm]

/-- Witness for C3 at the concrete input `w = 30`, `h = 50`. -/
theorem area_comm_witness :
    area { width := 30, height := 50 } = area { width := 50, height := 30 } :=
  area_comm 30 50 (by decide) (by decide) (by decide)

/-- C4: a rectangle of width `0` has area `0`, for every height in the
`u32` range. -/
theorem area_zero_width (h : Nat) (hh : h < U32_MOD) :
    area { width := 0, height := h } = 0 := by
  simp [area]

/-- Witness for C4 at the concrete height `h = 50`. -/
theorem area_zero_width_witness : area { width := 0, height := 50 } = 0 :=
  area_zero_width 50 (by decide)

/-- C5: calling `area` through a borrow neither mutates nor consumes the
argument: after `callArea r` the caller still holds `r` itself, with both
fields carrying their original values, and the computed component is exactly
`area r`. -/
theorem area_no_mutation (r : Rect) :
    (callArea r).2 = r ∧ (callArea r).2.width = r.width ∧
      (callArea r).2.height = r.height ∧ (callArea r).1 = area r :=
  ⟨rfl, rfl, rfl, rfl⟩

/-- C6: the area calculator terminates normally (no panic, exit code 0) with
stdout exactly `The area of the rectangle is 1500.` plus a newline, and that
output is exactly one line. -/
theorem areaProgram_output :
    areaProgram = some ("The area of the rectangle is 1500.\n", 0) ∧
      (areaLine mainRect).toList.count '\n' = 1 := by
  exact ⟨by decide, by decide⟩

/-- C7: the debug printer prints exactly one line,
`Rect is Rect { width: 30, height: 50 }` plus a newline, in which the field
name `width` with value `30` occurs before the field name `height` with value
`50`, and exits with code 0. -/
theorem debugProgram_output :
    debugProgram =
      ("Rect is Rect \x7b width: 30, height: 50 \x7d\n", 0) ∧
      (∃ pre mid post : String,
        debugProgram.1 = pre ++ "width: 30" ++ mid ++ "height: 50" ++ post) ∧
      debugProgram.1.toList.count '\n' = 1 := by
  refine ⟨by decide, ⟨"Rect is Rect \x7b ", ", ", " \x7d\n", by decide⟩, by decide⟩

/-- C8: overflow of the multiplication inside `area` is a reachable,
unguarded failure mode: there are `w` and `h` in the `u32` range whose true
product exceeds `u32::MAX`; there the panic branch of the embedded
multiplication is taken, and the wrapped result differs from the true
product. -/
theorem area_overflow_reachable :
    ∃ w h : Nat, w < U32_MOD ∧ h < U32_MOD ∧ U32_MOD ≤ w * h ∧
      areaOverflows { width := w, height := h } = true ∧
      area { width := w, height := h } ≠ w * h := by
  refine ⟨65536, 65536, ?_, ?_, ?_, ?_, ?_⟩ <;> decide

/-- C9: under the fixed literals actually used (`width = 30`, `height = 50`)
no operation can fail: the product `30 * 50` fits in a `u32`, so the overflow
check is false, the area program does not panic, and the debug program (which
performs no arithmetic at all) exits with code 0. -/
theorem fixed_inputs_no_failure :
    mainRect.width * mainRect.height < U32_MOD ∧
      areaOverflows mainRect = false ∧
      areaProgram.isSome = true ∧
      debugProgram.2 = 0 := by
  refine ⟨by decide, by decide, by decide, rfl⟩

/-- C10: `area` is monotone in each field separately: with the other field
fixed in range and the larger product free of overflow, enlarging either the
width or the height cannot decrease the area. -/
theorem area_monotone (h w1 w2 : Nat) (hw : w1 ≤ w2) (hh : h < U32_MOD)
    (h1 : w1 < U32_MOD) (h2 : w2 < U32_MOD) (hov : w2 * h < U32_MOD) :
    area { width := w1, height := h } ≤ area { width := w2, height := h } ∧
      area { width := h, height := w1 } ≤ area { width := h, height := w2 } := by
  have hle : w1 * h ≤ w2 * h := Nat.mul_le_mul_right h hw
  have h1v : w1 * h < U32_MOD := Nat.lt_of_le_of_lt hle hov
  have e1 : area { width := w1, height := h } = w1 * h := by
    simp [area, Nat.mod_eq_of_lt h1v]
  have e2 : area { width := w2, height := h } = w2 * h := by
    simp [area, Nat.mod_eq_of_lt hov]
  have e3 : area { width := h, height := w1 } = w1 * h := by
    simp [area, Nat.mul_comm h w1, Nat.mod_eq_of_lt h1v]
  have e4 : area { width := h, height := w2 } = w2 * h := by
    simp [area, Nat.mul_comm h w2, Nat.mod_eq_of_lt hov]
  exact ⟨e1 ▸ e2 ▸ hle, e3 ▸ e4 ▸ hle⟩

/-- Witness for C10 at the concrete input `h = 50`, `w1 = 2`, `w2 = 30`. -/
theorem area_monotone_witness :
    area { width := 2, height := 50 } ≤ area { width := 30, height := 50 } ∧
      area { width := 50, height := 2 } ≤ area { width := 50, height := 30 } :=
  area_monotone 50 2 30 (by decide) (by decide) (by decide) (by decide)
    (by decide)
